import Mathlib

/-!
Verification of the flow/session-correlation core of the stream5 ICMP
preprocessor (`src/network_inspectors/stream5/stream_icmp.cc`), against its
natural-language specification.

The source file is shallowly embedded below: pure helpers become Lean
functions, the mutable session table and statistics become explicit state
passed through the functions, and external collaborator calls (session-close
accounting, the flow's own `clear`, prune-counter resets) are recorded as
explicit events or state fields.  Machine integers are modelled as `Nat`;
bitfield operations use `Nat` bitwise operators.
-/

namespace Stream5Icmp

/-- An IP address as held by `sfip_t`: the four 32-bit words of `ip32`. -/
structure Sfip where
  w0 : Nat
  w1 : Nat
  w2 : Nat
  w3 : Nat
deriving DecidableEq, Repr

/-- Modelled from the spec: `sfip_fast_lt6` (declared in the sf_ip header,
which is not part of this excerpt) — the spec's "defined total order
(numeric/lexicographic over address bytes)", word-by-word over `ip32`:
return true at the first word where the left address is smaller, false at
the first word where it is larger, false when all four words are equal. -/
def sfip_fast_lt6 (a b : Sfip) : Bool :=
  if a.w0 < b.w0 then true
  else if a.w0 > b.w0 then false
  else if a.w1 < b.w1 then true
  else if a.w1 > b.w1 then false
  else if a.w2 < b.w2 then true
  else if a.w2 > b.w2 then false
  else if a.w3 < b.w3 then true
  else false

/-- Modelled from the spec: `IP_EQUALITY` (ipv6_port header, not in this
excerpt) — equality of the two addresses. -/
def IP_EQUALITY (a b : Sfip) : Bool := a = b

/-- The canonical flow key (`FlowKey`): protocol, low/high address with the
port paired to each, and the VLAN tag. -/
structure FlowKey where
  protocol : Nat
  ip_l : Sfip
  ip_h : Sfip
  port_l : Nat
  port_h : Nat
  vlan_tag : Nat
deriving DecidableEq, Repr

/-- The flow-key canonicalization performed inline in `ProcessIcmpUnreach`
(stream_icmp.cc lines 137–177): if the source address is `sfip_fast_lt6`-less
than the destination, the source becomes `ip_l`/`port_l`; if the addresses
are equal, the ports are compared instead (smaller port becomes `port_l`)
with `ip_l = ip_h` = the shared address; otherwise the destination becomes
`ip_l`/`port_l` and the source `ip_h`/`port_h`. -/
def canonicalize (protocol : Nat) (src : Sfip) (sport : Nat)
    (dst : Sfip) (dport : Nat) (vlan : Nat) : FlowKey :=
  if sfip_fast_lt6 src dst then
    { protocol := protocol, ip_l := src, port_l := sport,
      ip_h := dst, port_h := dport, vlan_tag := vlan }
  else if IP_EQUALITY src dst then
    if sport < dport then
      { protocol := protocol, ip_l := src, ip_h := src,
        port_l := sport, port_h := dport, vlan_tag := vlan }
    else
      { protocol := protocol, ip_l := src, ip_h := src,
        port_l := dport, port_h := sport, vlan_tag := vlan }
  else
    { protocol := protocol, ip_l := dst, port_l := dport,
      ip_h := src, port_h := sport, vlan_tag := vlan }

lemma sfip_lt_irrefl (a : Sfip) : sfip_fast_lt6 a a = false := by
  simp [sfip_fast_lt6]

lemma sfip_lt_asymm {a b : Sfip} (h : sfip_fast_lt6 a b = true) :
    sfip_fast_lt6 b a = false := by
  obtain ⟨a0, a1, a2, a3⟩ := a
  obtain ⟨b0, b1, b2, b3⟩ := b
  simp only [sfip_fast_lt6] at h ⊢
  split_ifs at h ⊢ <;> first | rfl | omega

lemma sfip_lt_trichotomy {a b : Sfip} (h : a ≠ b) :
    sfip_fast_lt6 a b = true ∨ sfip_fast_lt6 b a = true := by
  obtain ⟨a0, a1, a2, a3⟩ := a
  obtain ⟨b0, b1, b2, b3⟩ := b
  simp only [ne_eq, Sfip.mk.injEq] at h
  simp only [sfip_fast_lt6]
  split_ifs <;> simp
  all_goals omega

lemma sfip_lt_ne {a b : Sfip} (h : sfip_fast_lt6 a b = true) : a ≠ b := by
  intro hab
  rw [hab, sfip_lt_irrefl] at h
  exact Bool.false_ne_true h

/-- C1.  For every protocol, pair of unequal addresses, ports and vlan, the
canonicalization is symmetric in which endpoint is taken as the embedded
source, and the `sfip_fast_lt6`-smaller address is always stored as `ip_l`
paired with its own port as `port_l`, the larger as `ip_h`/`port_h`. -/
theorem canonicalize_symm (p : Nat) (A B : Sfip) (x y v : Nat) (hAB : A ≠ B) :
    canonicalize p A x B y v = canonicalize p B y A x v ∧
    (sfip_fast_lt6 A B = true →
      canonicalize p A x B y v =
        { protocol := p, ip_l := A, port_l := x, ip_h := B, port_h := y,
          vlan_tag := v }) ∧
    (sfip_fast_lt6 B A = true →
      canonicalize p A x B y v =
        { protocol := p, ip_l := B, port_l := y, ip_h := A, port_h := x,
          vlan_tag := v }) := by
  rcases sfip_lt_trichotomy hAB with hlt | hlt
  · have hgt := sfip_lt_asymm hlt
    refine ⟨?_, fun _ => ?_, fun hcon => ?_⟩
    · simp [canonicalize, IP_EQUALITY, hlt, hgt, hAB, (Ne.symm hAB)]
    · simp [canonicalize, hlt]
    · rw [hgt] at hcon
      exact absurd hcon (by simp)
  · have hgt := sfip_lt_asymm hlt
    refine ⟨?_, fun hcon => ?_, fun _ => ?_⟩
    · simp [canonicalize, IP_EQUALITY, hlt, hgt, hAB, (Ne.symm hAB)]
    · rw [hgt] at hcon
      exact absurd hcon (by simp)
    · simp [canonicalize, IP_EQUALITY, hlt, hgt, hAB]

/-- Witness for C1 at concrete addresses. -/
theorem canonicalize_symm_witness :
    canonicalize 6 ⟨0, 0, 0, 1⟩ 1000 ⟨0, 0, 0, 2⟩ 80 0 =
      canonicalize 6 ⟨0, 0, 0, 2⟩ 80 ⟨0, 0, 0, 1⟩ 1000 0 ∧
    (sfip_fast_lt6 ⟨0, 0, 0, 1⟩ ⟨0, 0, 0, 2⟩ = true →
      canonicalize 6 ⟨0, 0, 0, 1⟩ 1000 ⟨0, 0, 0, 2⟩ 80 0 =
        { protocol := 6, ip_l := ⟨0, 0, 0, 1⟩, port_l := 1000,
          ip_h := ⟨0, 0, 0, 2⟩, port_h := 80, vlan_tag := 0 }) ∧
    (sfip_fast_lt6 ⟨0, 0, 0, 2⟩ ⟨0, 0, 0, 1⟩ = true →
      canonicalize 6 ⟨0, 0, 0, 1⟩ 1000 ⟨0, 0, 0, 2⟩ 80 0 =
        { protocol := 6, ip_l := ⟨0, 0, 0, 2⟩, port_l := 80,
          ip_h := ⟨0, 0, 0, 1⟩, port_h := 1000, vlan_tag := 0 }) :=
  canonicalize_symm 6 ⟨0, 0, 0, 1⟩ ⟨0, 0, 0, 2⟩ 1000 80 0 (by decide)

/-- C5.  When the embedded source and destination addresses are equal, the
key is ordered by the port comparison: for ports `x < y` the key has
`port_l = x`, `port_h = y` regardless of which port was passed as source,
and `ip_l = ip_h` = the shared address. -/
theorem canonicalize_self_pair (p : Nat) (A : Sfip) (x y v : Nat)
    (hxy : x < y) :
    canonicalize p A x A y v =
      { protocol := p, ip_l := A, ip_h := A, port_l := x, port_h := y,
        vlan_tag := v } ∧
    canonicalize p A y A x v =
      { protocol := p, ip_l := A, ip_h := A, port_l := x, port_h := y,
        vlan_tag := v } := by
  constructor
  · simp [canonicalize, IP_EQUALITY, sfip_lt_irrefl, hxy]
  · simp [canonicalize, IP_EQUALITY, sfip_lt_irrefl, Nat.lt_asymm hxy]

/-- Witness for C5 at a concrete address and ports. -/
theorem canonicalize_self_pair_witness :
    canonicalize 17 ⟨0, 0, 0, 9⟩ 53 ⟨0, 0, 0, 9⟩ 4444 0 =
      { protocol := 17, ip_l := ⟨0, 0, 0, 9⟩, ip_h := ⟨0, 0, 0, 9⟩,
        port_l := 53, port_h := 4444, vlan_tag := 0 } ∧
    canonicalize 17 ⟨0, 0, 0, 9⟩ 4444 ⟨0, 0, 0, 9⟩ 53 0 =
      { protocol := 17, ip_l := ⟨0, 0, 0, 9⟩, ip_h := ⟨0, 0, 0, 9⟩,
        port_l := 53, port_h := 4444, vlan_tag := 0 } :=
  canonicalize_self_pair 17 ⟨0, 0, 0, 9⟩ 53 4444 0 (by decide)

/-! ### Protocol numbers, ICMP types and state-flag bits -/

def IPPROTO_ICMP : Nat := 1
def IPPROTO_TCP : Nat := 6
def IPPROTO_UDP : Nat := 17
def ICMP_DEST_UNREACH : Nat := 3

/-- Modelled from the spec: the flow state-flag bits (`SSNFLAG_*`) and the
`STREAM5_STATE_UNREACH` session-state bit are defined in flow/stream headers
that are not part of this excerpt.  The spec describes them as a "bitfield of
state flags including at least: dropped-client, dropped-server, and a
protocol-specific unreachable marker, plus generic lifecycle flags (pruned,
timed-out)"; they are modelled as distinct single bits (only distinctness and
bit semantics are used below). -/
def SSNFLAG_PRUNED : Nat := 0x40

def SSNFLAG_TIMEDOUT : Nat := 0x80

def SSNFLAG_DROP_CLIENT : Nat := 0x800

def SSNFLAG_DROP_SERVER : Nat := 0x1000

def STREAM5_STATE_UNREACH : Nat := 0x1000

/-- Modelled from the spec: direction constants (`SSN_DIR_*`, stream header
not in this excerpt); only their distinctness is used. -/
def SSN_DIR_SENDER : Nat := 1

def SSN_DIR_RESPONDER : Nat := 2

/-! ### Packets and flows -/

/-- The embedded original IP header of an ICMP error packet, as decoded into
`p->orig_iph` together with `GET_ORIG_IPH_PROTO`, `GET_ORIG_SRC`,
`GET_ORIG_DST`. -/
structure OrigHeader where
  proto : Nat
  src : Sfip
  dst : Sfip
deriving DecidableEq, Repr

/-- The decoded-packet fields `ProcessIcmpUnreach` and `IcmpSession::process`
consume: the ICMP message type (`p->icmph->type`), the optional embedded
original header (`p->orig_iph`), the embedded ports (`p->orig_sp`,
`p->orig_dp`), and the optional VLAN header value (`p->vh` / `VTH_VLAN`). -/
structure Packet where
  icmpType : Nat
  orig_iph : Option OrigHeader
  orig_sp : Nat
  orig_dp : Nat
  vh : Option Nat
deriving DecidableEq, Repr

/-- The `s5_state` part of a flow record: the `session_flags` bitfield and the
recorded `direction`. -/
structure S5State where
  session_flags : Nat
  direction : Nat
deriving DecidableEq, Repr

/-- The flow/session-record fields this core reads or mutates: `s5_state`,
`session_state`, and the two endpoint addresses `client_ip` / `server_ip`. -/
structure Flow where
  s5_state : S5State
  session_state : Nat
  client_ip : Sfip
  server_ip : Sfip
deriving DecidableEq, Repr

/-! ### The session table (external collaborator, `Stream::get_session`) -/

/-- The session table, modelled as an association list keyed by canonical
`FlowKey`.  The real table is an external hash store; only its
`lookup(key) -> session?` contract matters here, and in-place mutation of a
found record becomes replacement of the entry at its key. -/
def SessionTable := List (FlowKey × Flow)

/-- Lookup `Stream::get_session(&skey)`: first entry whose key equals `skey`. -/
def lookupSession (t : SessionTable) (k : FlowKey) : Option Flow :=
  match t with
  | [] => none
  | (k', f) :: rest => if k' = k then some f else lookupSession rest k

/-- Replace the (first) entry at key `k` by `f`, leaving all others alone. -/
def updateSession (t : SessionTable) (k : FlowKey) (f : Flow) : SessionTable :=
  match t with
  | [] => []
  | (k', f') :: rest =>
    if k' = k then (k', f) :: rest else (k', f') :: updateSession rest k f

lemma lookupSession_updateSession_self (t : SessionTable) (k : FlowKey)
    (f g : Flow) (h : lookupSession t k = some g) :
    lookupSession (updateSession t k f) k = some f := by
  induction t with
  | nil => simp [lookupSession] at h
  | cons e rest ih =>
    obtain ⟨k', f'⟩ := e
    by_cases hk : k' = k
    · simp [lookupSession, updateSession, hk]
    · simp only [lookupSession, updateSession, if_neg hk] at h ⊢
      exact ih h

/-! ### The unreachable correlator, `ProcessIcmpUnreach` -/

/-- Result of one `ProcessIcmpUnreach` (or `IcmpSession::process`) call: the
returned status, the session table after any mutation, and how many
`Stream::get_session` lookups were performed. -/
structure UnreachResult where
  status : Int
  table : SessionTable
  lookups : Nat

/-- The mutation applied to a found session (stream_icmp.cc lines 195–203):
`session_flags |= SSNFLAG_DROP_CLIENT; session_flags |= SSNFLAG_DROP_SERVER;
session_state |= STREAM5_STATE_UNREACH`. -/
def markDead (f : Flow) : Flow :=
  { f with
    s5_state := { f.s5_state with
      session_flags :=
        f.s5_state.session_flags ||| SSNFLAG_DROP_CLIENT |||
          SSNFLAG_DROP_SERVER },
    session_state := f.session_state ||| STREAM5_STATE_UNREACH }

/-- The VLAN tag taken from the packet envelope (lines 174–177):
`VTH_VLAN(p->vh)` when a VLAN header is present, else 0. -/
def packetVlan (p : Packet) : Nat :=
  match p.vh with
  | some v => v
  | none => 0

/-- Embedding of `ProcessIcmpUnreach` (stream_icmp.cc lines 119–206).  Returns 0 at once
when there is no embedded original header; otherwise builds the canonical key
from the embedded protocol/addresses/ports and the envelope VLAN, dispatches
a session lookup for embedded protocol TCP, UDP or ICMP (the `switch` has no
arm for any other protocol, leaving `ssn` null), and marks a found session
dead.  Always returns status 0. -/
def ProcessIcmpUnreach (t : SessionTable) (p : Packet) : UnreachResult :=
  match p.orig_iph with
  | none => { status := 0, table := t, lookups := 0 }
  | some orig =>
    let skey : FlowKey :=
      canonicalize orig.proto orig.src p.orig_sp orig.dst p.orig_dp
        (packetVlan p)
    if skey.protocol = IPPROTO_TCP ∨ skey.protocol = IPPROTO_UDP ∨
        skey.protocol = IPPROTO_ICMP then
      match lookupSession t skey with
      | some ssn =>
        { status := 0, table := updateSession t skey (markDead ssn),
          lookups := 1 }
      | none => { status := 0, table := t, lookups := 1 }
    else
      { status := 0, table := t, lookups := 0 }

/-- The canonical key `ProcessIcmpUnreach` builds for a packet with embedded
header `orig`. -/
def unreachKey (p : Packet) (orig : OrigHeader) : FlowKey :=
  canonicalize orig.proto orig.src p.orig_sp orig.dst p.orig_dp (packetVlan p)

lemma canonicalize_protocol (pr : Nat) (src : Sfip) (sp : Nat) (dst : Sfip)
    (dp v : Nat) : (canonicalize pr src sp dst dp v).protocol = pr := by
  simp only [canonicalize]
  split_ifs <;> rfl

lemma and_or_testbit (x c : Nat) : (x ||| c) &&& c = c := by
  apply Nat.eq_of_testBit_eq
  intro i
  simp only [Nat.testBit_and, Nat.testBit_or]
  cases hx : Nat.testBit x i <;> cases hc : Nat.testBit c i <;> simp

lemma markDead_flags (f : Flow) :
    (markDead f).s5_state.session_flags &&& SSNFLAG_DROP_CLIENT =
      SSNFLAG_DROP_CLIENT ∧
    (markDead f).s5_state.session_flags &&& SSNFLAG_DROP_SERVER =
      SSNFLAG_DROP_SERVER ∧
    (markDead f).session_state &&& STREAM5_STATE_UNREACH =
      STREAM5_STATE_UNREACH := by
  refine ⟨?_, ?_, ?_⟩
  · have : f.s5_state.session_flags ||| SSNFLAG_DROP_CLIENT |||
        SSNFLAG_DROP_SERVER =
        (f.s5_state.session_flags ||| SSNFLAG_DROP_SERVER) |||
          SSNFLAG_DROP_CLIENT := by
      rw [Nat.or_assoc, Nat.or_assoc, Nat.or_comm SSNFLAG_DROP_CLIENT]
    rw [markDead]
    simp only [this]
    exact and_or_testbit _ _
  · rw [markDead]
    exact and_or_testbit _ _
  · rw [markDead]
    exact and_or_testbit _ _

/-- C2.  When the canonical key built from the embedded header (embedded
protocol TCP, UDP or ICMP) finds an existing flow, `ProcessIcmpUnreach` sets
`SSNFLAG_DROP_CLIENT` and `SSNFLAG_DROP_SERVER` on that flow's session flags
and `STREAM5_STATE_UNREACH` on its session state, and that flow is still
found under the same key afterwards. -/
theorem unreach_marks_found_flow (t : SessionTable) (p : Packet)
    (orig : OrigHeader) (ssn : Flow)
    (hor : p.orig_iph = some orig)
    (hp : orig.proto = IPPROTO_TCP ∨ orig.proto = IPPROTO_UDP ∨
      orig.proto = IPPROTO_ICMP)
    (hfound : lookupSession t (unreachKey p orig) = some ssn) :
    (ProcessIcmpUnreach t p).status = 0 ∧
    ∃ ssn', lookupSession (ProcessIcmpUnreach t p).table (unreachKey p orig) =
        some ssn' ∧
      ssn'.s5_state.session_flags &&& SSNFLAG_DROP_CLIENT =
        SSNFLAG_DROP_CLIENT ∧
      ssn'.s5_state.session_flags &&& SSNFLAG_DROP_SERVER =
        SSNFLAG_DROP_SERVER ∧
      ssn'.session_state &&& STREAM5_STATE_UNREACH = STREAM5_STATE_UNREACH := by
  have hkproto : (unreachKey p orig).protocol = orig.proto :=
    canonicalize_protocol _ _ _ _ _ _
  have hres : ProcessIcmpUnreach t p =
      { status := 0, table := updateSession t (unreachKey p orig)
          (markDead ssn), lookups := 1 } := by
    rw [ProcessIcmpUnreach, hor]
    simp only [unreachKey] at hfound ⊢
    rw [if_pos (by rw [canonicalize_protocol]; exact hp), hfound]
  refine ⟨by rw [hres], markDead ssn, ?_, markDead_flags ssn⟩
  rw [hres]
  exact lookupSession_updateSession_self t _ (markDead ssn) ssn hfound

/-! ### Concrete demonstration inputs for the witness theorems -/

/-- A demonstration address A = 0.0.0.1. -/
def ipA : Sfip := ⟨0, 0, 0, 1⟩

/-- A demonstration address B = 0.0.0.2. -/
def ipB : Sfip := ⟨0, 0, 0, 2⟩

/-- A pristine TCP flow between A:1000 and B:80. -/
def demoFlow : Flow :=
  { s5_state := { session_flags := 0, direction := SSN_DIR_SENDER },
    session_state := 0, client_ip := ipA, server_ip := ipB }

/-- The canonical key the flow was stored under: built from A:1000 → B:80. -/
def demoKey : FlowKey := canonicalize IPPROTO_TCP ipA 1000 ipB 80 0

/-- A session table holding exactly `demoFlow` under `demoKey`. -/
def demoTable : SessionTable := [(demoKey, demoFlow)]

/-- Embedded original header of the demonstration ICMP packet: the reverse
direction, (TCP, src = B:80, dst = A:1000). -/
def demoOrig : OrigHeader := { proto := IPPROTO_TCP, src := ipB, dst := ipA }

/-- The demonstration ICMP destination-unreachable packet. -/
def demoPacket : Packet :=
  { icmpType := ICMP_DEST_UNREACH, orig_iph := some demoOrig,
    orig_sp := 80, orig_dp := 1000, vh := none }

/-- A destination-unreachable packet with no embedded original header. -/
def noOrigPacket : Packet :=
  { icmpType := ICMP_DEST_UNREACH, orig_iph := none,
    orig_sp := 0, orig_dp := 0, vh := none }

/-- Embedded original header carrying protocol 47 (GRE). -/
def greOrig : OrigHeader := { proto := 47, src := ipB, dst := ipA }

/-- A destination-unreachable packet whose embedded protocol is GRE. -/
def grePacket : Packet :=
  { icmpType := ICMP_DEST_UNREACH, orig_iph := some greOrig,
    orig_sp := 80, orig_dp := 1000, vh := none }

/-- Witness for C2: the spec's concrete scenario.  The table holds one TCP
flow stored under the canonical key of (A:1000, B:80, vlan 0); the ICMP
packet's embedded header is (TCP, src = B:80, dst = A:1000).  The flow is
located through the symmetric key and all three flags are set on it. -/
theorem unreach_marks_found_flow_witness :
    (ProcessIcmpUnreach demoTable demoPacket).status = 0 ∧
    ∃ ssn', lookupSession (ProcessIcmpUnreach demoTable demoPacket).table
        (unreachKey demoPacket demoOrig) = some ssn' ∧
      ssn'.s5_state.session_flags &&& SSNFLAG_DROP_CLIENT =
        SSNFLAG_DROP_CLIENT ∧
      ssn'.s5_state.session_flags &&& SSNFLAG_DROP_SERVER =
        SSNFLAG_DROP_SERVER ∧
      ssn'.session_state &&& STREAM5_STATE_UNREACH = STREAM5_STATE_UNREACH :=
  unreach_marks_found_flow demoTable demoPacket demoOrig demoFlow
    rfl (Or.inl rfl) (by decide)

/-- C3.  A packet with no embedded original IP header is a deterministic
no-op: status 0, no lookup, the table untouched. -/
theorem unreach_no_orig_noop (t : SessionTable) (p : Packet)
    (h : p.orig_iph = none) :
    ProcessIcmpUnreach t p = { status := 0, table := t, lookups := 0 } := by
  rw [ProcessIcmpUnreach, h]

/-- Witness for C3 at a concrete packet without `orig_iph`. -/
theorem unreach_no_orig_noop_witness :
    ProcessIcmpUnreach demoTable noOrigPacket =
      { status := 0, table := demoTable, lookups := 0 } :=
  unreach_no_orig_noop demoTable noOrigPacket rfl

/-- C4.  A packet whose embedded protocol is none of TCP, UDP, ICMP performs
no lookup, mutates no flow, and returns status 0. -/
theorem unreach_unknown_proto_noop (t : SessionTable) (p : Packet)
    (orig : OrigHeader) (hor : p.orig_iph = some orig)
    (ht : orig.proto ≠ IPPROTO_TCP) (hu : orig.proto ≠ IPPROTO_UDP)
    (hi : orig.proto ≠ IPPROTO_ICMP) :
    ProcessIcmpUnreach t p = { status := 0, table := t, lookups := 0 } := by
  rw [ProcessIcmpUnreach, hor]
  simp only
  rw [if_neg]
  rw [canonicalize_protocol]
  push_neg
  exact ⟨ht, hu, hi⟩

/-- Witness for C4: embedded protocol 47 (GRE). -/
theorem unreach_unknown_proto_noop_witness :
    ProcessIcmpUnreach demoTable grePacket =
      { status := 0, table := demoTable, lookups := 0 } :=
  unreach_unknown_proto_noop demoTable grePacket greOrig
    rfl (by decide) (by decide) (by decide)

/-! ### Session teardown, `IcmpSessionCleanup` / `IcmpSession::clear` -/

/-- The close reasons reported to `CloseStreamSession`. -/
inductive CloseReason where
  | sessionClosedPruned
  | sessionClosedTimedout
  | sessionClosedNormally
deriving DecidableEq, Repr

/-- The externally visible effects of `IcmpSessionCleanup`, in order:
the `CloseStreamSession(&sfBase, reason)` accounting call, the `ssn->clear()`
call that clears the flow's transient fields, and the
`icmpStats.released++` increment. -/
inductive CleanupEvent where
  | closeStream : CloseReason → CleanupEvent
  | flowClear : CleanupEvent
  | releasedIncrement : CleanupEvent
deriving DecidableEq, Repr

/-- Embedding of `IcmpSessionCleanup` (stream_icmp.cc lines 99–117): report the close
reason chosen by the flag cascade (`SSNFLAG_PRUNED` first, else
`SSNFLAG_TIMEDOUT`, else normal), then clear the flow, then increment the
released counter.  The effect trace is returned in program order. -/
def IcmpSessionCleanup (ssn : Flow) : List CleanupEvent :=
  (if ssn.s5_state.session_flags &&& SSNFLAG_PRUNED ≠ 0 then
    [CleanupEvent.closeStream CloseReason.sessionClosedPruned]
  else if ssn.s5_state.session_flags &&& SSNFLAG_TIMEDOUT ≠ 0 then
    [CleanupEvent.closeStream CloseReason.sessionClosedTimedout]
  else
    [CleanupEvent.closeStream CloseReason.sessionClosedNormally])
  ++ [CleanupEvent.flowClear, CleanupEvent.releasedIncrement]

/-- The per-flow state of an `IcmpSession` (echo counter, creation time). -/
structure IcmpSessionState where
  echo_count : Nat
  ssn_time_sec : Nat
  ssn_time_usec : Nat
deriving DecidableEq, Repr

/-- Embedding of `IcmpSession::setup` (lines 248–254): zero the counter and timestamp. -/
def IcmpSession.setup : IcmpSessionState :=
  { echo_count := 0, ssn_time_sec := 0, ssn_time_usec := 0 }

/-- Embedding of `IcmpSession::clear` (lines 256–259): delegate to `IcmpSessionCleanup`
on the owning flow. -/
def IcmpSession.clear (flow : Flow) : List CleanupEvent :=
  IcmpSessionCleanup flow

/-- C6.  Teardown classifies the close reason with precedence pruned >
timed-out > normal (first match wins), and the effect order is: report the
reason, then clear the flow's transient fields, then increment the released
statistic.  Stated for the three scenarios of the claim: both flags set,
only timed-out set, neither set. -/
theorem cleanup_precedence (ssn : Flow) :
    (ssn.s5_state.session_flags &&& SSNFLAG_PRUNED ≠ 0 →
      IcmpSession.clear ssn =
        [CleanupEvent.closeStream CloseReason.sessionClosedPruned,
         CleanupEvent.flowClear, CleanupEvent.releasedIncrement]) ∧
    (ssn.s5_state.session_flags &&& SSNFLAG_PRUNED = 0 →
      ssn.s5_state.session_flags &&& SSNFLAG_TIMEDOUT ≠ 0 →
      IcmpSession.clear ssn =
        [CleanupEvent.closeStream CloseReason.sessionClosedTimedout,
         CleanupEvent.flowClear, CleanupEvent.releasedIncrement]) ∧
    (ssn.s5_state.session_flags &&& SSNFLAG_PRUNED = 0 →
      ssn.s5_state.session_flags &&& SSNFLAG_TIMEDOUT = 0 →
      IcmpSession.clear ssn =
        [CleanupEvent.closeStream CloseReason.sessionClosedNormally,
         CleanupEvent.flowClear, CleanupEvent.releasedIncrement]) := by
  refine ⟨fun hp => ?_, fun hp ht => ?_, fun hp ht => ?_⟩
  · simp [IcmpSession.clear, IcmpSessionCleanup, hp]
  · simp [IcmpSession.clear, IcmpSessionCleanup, hp, ht]
  · simp [IcmpSession.clear, IcmpSessionCleanup, hp, ht]

/-- A flow with both the pruned and the timed-out flag set. -/
def prunedTimedFlow : Flow :=
  { s5_state := { session_flags := SSNFLAG_PRUNED ||| SSNFLAG_TIMEDOUT,
                  direction := SSN_DIR_SENDER },
    session_state := 0, client_ip := ipA, server_ip := ipB }

/-- A flow with only the timed-out flag set. -/
def timedFlow : Flow :=
  { s5_state := { session_flags := SSNFLAG_TIMEDOUT,
                  direction := SSN_DIR_SENDER },
    session_state := 0, client_ip := ipA, server_ip := ipB }

/-- Witness for C6: a flow with both pruned and timed-out set is reported as
pruned; a flow with only timed-out as timed-out; a flow with neither as
normal — each followed by the clear and the released increment. -/
theorem cleanup_precedence_witness :
    IcmpSession.clear prunedTimedFlow =
      [CleanupEvent.closeStream CloseReason.sessionClosedPruned,
       CleanupEvent.flowClear, CleanupEvent.releasedIncrement] ∧
    IcmpSession.clear timedFlow =
      [CleanupEvent.closeStream CloseReason.sessionClosedTimedout,
       CleanupEvent.flowClear, CleanupEvent.releasedIncrement] ∧
    IcmpSession.clear demoFlow =
      [CleanupEvent.closeStream CloseReason.sessionClosedNormally,
       CleanupEvent.flowClear, CleanupEvent.releasedIncrement] :=
  ⟨(cleanup_precedence prunedTimedFlow).1 (by decide),
   (cleanup_precedence timedFlow).2.1 (by decide) (by decide),
   (cleanup_precedence demoFlow).2.2 (by decide) (by decide)⟩

/-! ### `IcmpSession::update_direction` -/

/-- Embedding of `IcmpSession::update_direction` (stream_icmp.cc lines 288–311).  The
sender address is the flow's `client_ip`, the responder the `server_ip`.  If
the observed address equals the sender address and both the observed
direction and the recorded direction are sender, return unchanged (and
symmetrically for responder); otherwise swap the two address fields, leaving
`s5_state.direction` the same.  The port parameter is unused. -/
def update_direction (flow : Flow) (dir : Nat) (ip : Sfip) (_port : Nat) :
    Flow :=
  if IP_EQUALITY flow.client_ip ip then
    if dir = SSN_DIR_SENDER ∧ flow.s5_state.direction = SSN_DIR_SENDER then
      flow
    else
      { flow with client_ip := flow.server_ip, server_ip := flow.client_ip }
  else if IP_EQUALITY flow.server_ip ip then
    if dir = SSN_DIR_RESPONDER ∧
        flow.s5_state.direction = SSN_DIR_RESPONDER then
      flow
    else
      { flow with client_ip := flow.server_ip, server_ip := flow.client_ip }
  else
    { flow with client_ip := flow.server_ip, server_ip := flow.client_ip }

/-- C7.  When the observed role and address already match the recorded
direction (sender case or the symmetric responder case), two successive
`update_direction` calls leave the flow — in particular its sender and
responder address fields — unchanged. -/
theorem update_direction_idem (flow : Flow) (dir : Nat) (ip : Sfip)
    (port1 port2 : Nat)
    (h : (ip = flow.client_ip ∧ dir = SSN_DIR_SENDER ∧
            flow.s5_state.direction = SSN_DIR_SENDER) ∨
         (ip = flow.server_ip ∧ dir = SSN_DIR_RESPONDER ∧
            flow.s5_state.direction = SSN_DIR_RESPONDER)) :
    update_direction (update_direction flow dir ip port1) dir ip port2 =
      flow := by
  have honce : update_direction flow dir ip port1 = flow := by
    rcases h with ⟨hip, hdir, hrec⟩ | ⟨hip, hdir, hrec⟩
    · rw [update_direction, if_pos (by simp [IP_EQUALITY, hip]),
        if_pos ⟨hdir, hrec⟩]
    · by_cases hcl : flow.client_ip = ip
      · have hsame : flow.server_ip = flow.client_ip := by rw [hcl, hip]
        rw [update_direction, if_pos (by simp [IP_EQUALITY, hcl])]
        split
        · rfl
        · cases flow with
          | mk s st c sv =>
            simp only at hsame
            simp [hsame]
      · rw [update_direction, if_neg (by simp [IP_EQUALITY, hcl]),
          if_pos (by simp [IP_EQUALITY, hip]), if_pos ⟨hdir, hrec⟩]
  have htwice : update_direction flow dir ip port2 = flow := by
    rcases h with ⟨hip, hdir, hrec⟩ | ⟨hip, hdir, hrec⟩
    · rw [update_direction, if_pos (by simp [IP_EQUALITY, hip]),
        if_pos ⟨hdir, hrec⟩]
    · by_cases hcl : flow.client_ip = ip
      · have hsame : flow.server_ip = flow.client_ip := by rw [hcl, hip]
        rw [update_direction, if_pos (by simp [IP_EQUALITY, hcl])]
        split
        · rfl
        · cases flow with
          | mk s st c sv =>
            simp only at hsame
            simp [hsame]
      · rw [update_direction, if_neg (by simp [IP_EQUALITY, hcl]),
          if_pos (by simp [IP_EQUALITY, hip]), if_pos ⟨hdir, hrec⟩]
  rw [honce, htwice]

/-- Witness for C7 at the demonstration flow: the sender A observed as
sender, twice, with the recorded direction already sender. -/
theorem update_direction_idem_witness :
    update_direction
        (update_direction demoFlow SSN_DIR_SENDER ipA 1000)
        SSN_DIR_SENDER ipA 1000 = demoFlow :=
  update_direction_idem demoFlow SSN_DIR_SENDER ipA 1000 1000
    (Or.inl ⟨by decide, rfl, by decide⟩)

/-- C8.  Off the matching fast paths, `update_direction` exchanges exactly
the flow's `client_ip` and `server_ip` fields — `s5_state` (including the
direction flag) and `session_state` are untouched — and the port argument
has no effect on the result. -/
theorem update_direction_swap (flow : Flow) (dir : Nat) (ip : Sfip)
    (port port' : Nat)
    (h : ¬ ((flow.client_ip = ip ∧ dir = SSN_DIR_SENDER ∧
              flow.s5_state.direction = SSN_DIR_SENDER) ∨
            (flow.client_ip ≠ ip ∧ flow.server_ip = ip ∧
              dir = SSN_DIR_RESPONDER ∧
              flow.s5_state.direction = SSN_DIR_RESPONDER))) :
    update_direction flow dir ip port =
      { s5_state := flow.s5_state, session_state := flow.session_state,
        client_ip := flow.server_ip, server_ip := flow.client_ip } ∧
    update_direction flow dir ip port =
      update_direction flow dir ip port' := by
  push_neg at h
  obtain ⟨h1, h2⟩ := h
  have hswap : ∀ q : Nat, update_direction flow dir ip q =
      { s5_state := flow.s5_state, session_state := flow.session_state,
        client_ip := flow.server_ip, server_ip := flow.client_ip } := by
    intro q
    by_cases hcl : flow.client_ip = ip
    · rw [update_direction, if_pos (by simp [IP_EQUALITY, hcl]),
        if_neg (fun hand => h1 hcl hand.1 hand.2)]
    · by_cases hsv : flow.server_ip = ip
      · rw [update_direction, if_neg (by simp [IP_EQUALITY, hcl]),
          if_pos (by simp [IP_EQUALITY, hsv]),
          if_neg (fun hand => h2 hcl hsv hand.1 hand.2)]
      · rw [update_direction, if_neg (by simp [IP_EQUALITY, hcl]),
          if_neg (by simp [IP_EQUALITY, hsv])]
  exact ⟨hswap port, by rw [hswap port, hswap port']⟩

/-- Witness for C8: the spec's scenario — sender = A, responder = B, the
responder role observed at address A triggers the swap to sender = B,
responder = A; the port argument is irrelevant. -/
theorem update_direction_swap_witness :
    update_direction demoFlow SSN_DIR_RESPONDER ipA 1000 =
      { s5_state := demoFlow.s5_state,
        session_state := demoFlow.session_state,
        client_ip := demoFlow.server_ip, server_ip := demoFlow.client_ip } ∧
    update_direction demoFlow SSN_DIR_RESPONDER ipA 1000 =
      update_direction demoFlow SSN_DIR_RESPONDER ipA 7777 :=
  update_direction_swap demoFlow SSN_DIR_RESPONDER ipA 1000 7777 (by decide)

/-! ### `IcmpSession::process` -/

/-- Embedding of `IcmpSession::process` (stream_icmp.cc lines 266–283): dispatch on the
ICMP message type; destination-unreachable invokes `ProcessIcmpUnreach` and
propagates its status, every other type is a no-op with status 0. -/
def IcmpSession.process (t : SessionTable) (p : Packet) : UnreachResult :=
  if p.icmpType = ICMP_DEST_UNREACH then
    ProcessIcmpUnreach t p
  else
    { status := 0, table := t, lookups := 0 }

lemma ProcessIcmpUnreach_status (t : SessionTable) (p : Packet) :
    (ProcessIcmpUnreach t p).status = 0 := by
  rw [ProcessIcmpUnreach]
  cases p.orig_iph with
  | none => rfl
  | some orig =>
    simp only
    split
    · split <;> rfl
    · rfl

/-- C9.  `IcmpSession::process` returns status 0 for every session table and
every packet: non-unreachable ICMP types are no-ops, and every path of
`ProcessIcmpUnreach` (missing embedded header, unsupported embedded
protocol, lookup miss, successful correlation) returns 0. -/
theorem process_status_always_zero (t : SessionTable) (p : Packet) :
    (IcmpSession.process t p).status = 0 := by
  rw [IcmpSession.process]
  split
  · exact ProcessIcmpUnreach_status t p
  · rfl

/-! ### Statistics, `icmp_reset_stats` -/

/-- Modelled from the spec: the `SessionStats` counter-set type (stream
common header, not in this excerpt).  The spec describes "two instances of
an identical counter-set type"; the excerpt itself uses the `released` and
`prunes` members.  The exact member list is immaterial: `memset` semantics
zero every field. -/
structure SessionStats where
  sessions : Nat
  prunes : Nat
  timeouts : Nat
  created : Nat
  released : Nat
  discards : Nat
  events : Nat
deriving DecidableEq, Repr

/-- All-zero counters: the result of `memset(&stats, 0, sizeof(stats))`. -/
def zeroSessionStats : SessionStats :=
  { sessions := 0, prunes := 0, timeouts := 0, created := 0, released := 0,
    discards := 0, events := 0 }

/-- The statistics state the excerpt touches: the worker-local `icmpStats`,
the cumulative `gicmpStats`, and the protocols for which a
`flow_con->reset_prunes` request has been issued (the flow-control
collaborator is external; its prune counters are represented by the list of
reset requests sent to it, in order). -/
structure StatsWorld where
  icmpStats : SessionStats
  gicmpStats : SessionStats
  prune_reset_requests : List Nat
deriving DecidableEq, Repr

/-- Embedding of `icmp_reset_stats` (stream_icmp.cc lines 333–337):
`memset(&icmpStats, 0, sizeof(icmpStats))` then
`flow_con->reset_prunes(IPPROTO_ICMP)`. -/
def icmp_reset_stats (w : StatsWorld) : StatsWorld :=
  { w with
    icmpStats := zeroSessionStats,
    prune_reset_requests := w.prune_reset_requests ++ [IPPROTO_ICMP] }

/-- C10.  `icmp_reset_stats` zeroes every field of the worker-local set,
issues a prune-counter reset request for the ICMP protocol, and leaves the
cumulative `gicmpStats` exactly as it was. -/
theorem icmp_reset_stats_spec (w : StatsWorld) :
    (icmp_reset_stats w).icmpStats.sessions = 0 ∧
    (icmp_reset_stats w).icmpStats.prunes = 0 ∧
    (icmp_reset_stats w).icmpStats.timeouts = 0 ∧
    (icmp_reset_stats w).icmpStats.created = 0 ∧
    (icmp_reset_stats w).icmpStats.released = 0 ∧
    (icmp_reset_stats w).icmpStats.discards = 0 ∧
    (icmp_reset_stats w).icmpStats.events = 0 ∧
    (icmp_reset_stats w).gicmpStats = w.gicmpStats ∧
    (icmp_reset_stats w).prune_reset_requests =
      w.prune_reset_requests ++ [IPPROTO_ICMP] := by
  refine ⟨rfl, rfl, rfl, rfl, rfl, rfl, rfl, rfl, rfl⟩

end Stream5Icmp
